import Mathlib

/-!
Shallow embedding of the Pump.fun indexer (Rust) for specification checking.

Sources embedded:
* `src/helius/parser.rs`  — pure extraction of trades / token creations from a
  materialized `getTransaction` response.
* `src/helius/fetcher.rs` — the worker's retry loop for `getTransaction` and the
  pure state-transition logic of `process_and_save` (token update, holder
  balance update).
* `src/models/queries.rs` — the row-level semantics of the SQL statements
  (`upsert_token`, `insert_trade`, `upsert_token_holder`), modelled as pure
  functions from the stored row (if any) and the incoming row to the resulting
  stored row.

Modelling conventions:
* `rust_decimal::Decimal` is modelled as `ℚ` (the code only adds, subtracts,
  multiplies, divides and compares; `Decimal` is exact on the values involved).
* `chrono::DateTime<Utc>` is modelled as an `Int` of unix seconds.
* Rust `u64`/`i64` arithmetic uses release-profile wrapping semantics, made
  explicit with `% 2^64` style helpers below.
* Impure calls to `Utc::now()` / `Instant::now()` / `NOW()` are made explicit
  as a `now : Int` parameter.
* `serde_json::Value` fields (`Instruction.parsed`, `TransactionMeta.err`) are
  not read by any embedded function and are omitted from the structures.
-/

namespace Pump

/-- Two to the sixty-fourth, the `u64` modulus. -/
def U64_MOD : Nat := 18446744073709551616

/-- Two to the sixty-third, the `i64` sign boundary. -/
def I64_HALF : Nat := 9223372036854775808

/-- `u64` wrapping (Rust release-profile overflow semantics). -/
def wrap64u (n : Nat) : Nat := n % U64_MOD

/-- Reinterpret a `u64` value as an `i64` (Rust `as i64` cast). -/
def u64AsI64 (n : Nat) : Int :=
  if n % U64_MOD < I64_HALF then (n % U64_MOD : Int)
  else (n % U64_MOD : Int) - (U64_MOD : Int)

/-- Wrap an integer into the `i64` range (Rust release-profile overflow). -/
def wrap64i (x : Int) : Int := (x + (I64_HALF : Int)) % (U64_MOD : Int) - (I64_HALF : Int)

/-- Accumulate a non-empty run of decimal digits (the digit grammar shared by
Rust's `i64`/`u64` `from_str`); `none` on the empty string or a non-digit. -/
def parseDigitsAux : List Char → Nat → Option Nat
  | [], acc => some acc
  | c :: t, acc =>
    if c.isDigit then parseDigitsAux t (acc * 10 + (c.toNat - 48)) else none

/-- The digits of a non-empty all-digit string as a number. -/
def parseNatDigits? : List Char → Option Nat
  | [] => none
  | l => parseDigitsAux l 0

/-- Rust `s.parse::<i64>().unwrap_or(0)`: an optional sign, then digits, value
in the `i64` range; `0` on any parse failure. -/
def parseI64or0 (s : String) : Int :=
  match s.data with
  | '-' :: rest =>
    match parseNatDigits? rest with
    | some n => if n ≤ I64_HALF then -(n : Int) else 0
    | none => 0
  | '+' :: rest =>
    match parseNatDigits? rest with
    | some n => if n < I64_HALF then (n : Int) else 0
    | none => 0
  | l =>
    match parseNatDigits? l with
    | some n => if n < I64_HALF then (n : Int) else 0
    | none => 0

/-- Rust `s.parse::<u64>().unwrap_or(0)`: an optional `+`, then digits, value
below `2^64`; `0` on any parse failure. -/
def parseU64or0 (s : String) : Nat :=
  match s.data with
  | '+' :: rest =>
    match parseNatDigits? rest with
    | some n => if n < U64_MOD then n else 0
    | none => 0
  | l =>
    match parseNatDigits? l with
    | some n => if n < U64_MOD then n else 0
    | none => 0

/-- Smallest unix-seconds value representable by `chrono::DateTime<Utc>`. -/
def CHRONO_MIN_TS : Int := -8334601228800

/-- Largest unix-seconds value representable by `chrono::DateTime<Utc>`. -/
def CHRONO_MAX_TS : Int := 8210266876799

/-- `chrono::DateTime::from_timestamp(ts, 0)`: `none` when out of range. -/
def fromTimestamp? (ts : Int) : Option Int :=
  if CHRONO_MIN_TS ≤ ts ∧ ts ≤ CHRONO_MAX_TS then some ts else none

/-! ### String helpers

Rust's byte-indexed `str` operations are modelled at character granularity;
the two agree on ASCII data, which is all the scanned patterns assume. -/

/-- First position (in characters) at which `pat` occurs in the listed text. -/
def findSubstrAux (pat : List Char) : List Char → Nat → Option Nat
  | [], i => if pat.isPrefixOf ([] : List Char) then some i else none
  | c :: t, i =>
    if pat.isPrefixOf (c :: t) then some i else findSubstrAux pat t (i + 1)

/-- Rust `s.find(pat)` (position of the first occurrence). -/
def strFind? (s pat : String) : Option Nat := findSubstrAux pat.data s.data 0

/-- Rust `s.contains(pat)` for substring patterns. -/
def strContains (s pat : String) : Bool := (strFind? s pat).isSome

/-- Rust `s.find(a).or_else(|| s.find(b))`. -/
def orFind (s a b : String) : Option Nat :=
  match strFind? s a with
  | some p => some p
  | none => strFind? s b

/-- Rust `s.split(seps).next().unwrap_or("")`: the prefix before the first
occurrence of any separator character. -/
def takeUntilAny (s : String) (seps : List Char) : String :=
  String.mk (s.data.takeWhile (fun c => !(seps.contains c)))

/-- Rust `s.split_whitespace().next().unwrap_or("")`. -/
def splitWsFirst (s : String) : String :=
  String.mk ((s.data.dropWhile Char.isWhitespace).takeWhile (fun c => !c.isWhitespace))

/-- The double-quote character (one of the Rust split separators). -/
def quoteChar : Char := Char.ofNat 34

/-- The closing-brace character (one of the Rust split separators). -/
def rbraceChar : Char := Char.ofNat 125

/-! ### Constants from `parser.rs` -/

def PUMP_FUN_PROGRAM_ID : String := "6EF8rrecthR5Dkzon8Nwu78hRvfCKubJ14M5uBEwF6P"

def SOL_MINT : String := "So11111111111111111111111111111111111111112"

def LAMPORTS_PER_SOL : Nat := 1000000000

/-- Standard Pump.fun virtual offset (30 SOL). -/
def VIRTUAL_SOL_OFFSET : Nat := 30 * LAMPORTS_PER_SOL

/-! ### Helius transaction model (`models/helius_model.rs`) -/

structure AccountKey where
  pubkey : String
  signer : Bool
  writable : Bool
deriving DecidableEq, Repr

/-- `Instruction` (the `parsed: Option<Value>` field is opaque JSON never read
by the embedded code and is omitted). -/
structure Instruction where
  program_id : String
  accounts : Option (List String) := none
  data : Option String := none
  program : Option String := none
deriving DecidableEq, Repr

structure UiTokenAmount where
  ui_amount : Option ℚ := none
  decimals : Nat := 6
  amount : String
  ui_amount_string : Option String := none
deriving DecidableEq, Repr

structure TokenBalance where
  account_index : Nat
  mint : String
  ui_token_amount : UiTokenAmount
  owner : Option String
deriving DecidableEq, Repr

/-- `TransactionMeta` (the `err: Option<Value>` field is opaque JSON never read
by the embedded code and is omitted; `inner_instructions` likewise unread). -/
structure TransactionMeta where
  fee : Nat := 0
  pre_balances : List Nat
  post_balances : List Nat
  compute_units_consumed : Option Nat := none
  pre_token_balances : Option (List TokenBalance)
  post_token_balances : Option (List TokenBalance)
  log_messages : Option (List String)
deriving DecidableEq, Repr

structure TransactionMessage where
  account_keys : List AccountKey
  instructions : List Instruction
  recent_blockhash : String := ""
deriving DecidableEq, Repr

structure TransactionData where
  signatures : List String
  message : TransactionMessage
deriving DecidableEq, Repr

structure TransactionResult where
  slot : Nat
  block_time : Option Int
  transaction : TransactionData
  meta : Option TransactionMeta
deriving DecidableEq, Repr

/-! ### Database row model (`models/db_model.rs`) -/

structure Trade where
  signature : String
  token_mint : String
  sol_amount : ℚ
  token_amount : ℚ
  is_buy : Bool
  user_wallet : String
  timestamp : Int
  virtual_sol_reserves : ℚ
  virtual_token_reserves : ℚ
  price_sol : Option ℚ
  price_usd : Option ℚ
  track_volume : Bool
  ix_name : String
  slot : Int
deriving DecidableEq, Repr

structure Token where
  mint_address : String
  name : Option String
  symbol : Option String
  uri : Option String
  bonding_curve_address : Option String
  creator_wallet : Option String
  virtual_token_reserves : ℚ
  virtual_sol_reserves : ℚ
  real_token_reserves : ℚ
  token_total_supply : ℚ
  market_cap_usd : ℚ
  bonding_curve_progress : ℚ
  complete : Bool
  created_at : Int
  updated_at : Option Int
deriving DecidableEq, Repr

structure TokenHolder where
  token_mint : String
  user_wallet : String
  balance : ℚ
  last_updated_slot : Int
  updated_at : Option Int
deriving DecidableEq, Repr

/-! ### `parser.rs`: trade extraction -/

/-- `calculate_sol_change`: locate the wallet among the account keys and take
the absolute lamport balance change at that index (`0` when absent).
The Rust code reads the `u64` balances `as i64` and subtracts. -/
def calculate_sol_change (meta : TransactionMeta) (user_wallet : String)
    (account_keys : List AccountKey) : Nat :=
  match account_keys.findIdx? (fun k => k.pubkey == user_wallet) with
  | some i =>
    let pre := u64AsI64 (meta.pre_balances.getD i 0)
    let post := u64AsI64 (meta.post_balances.getD i 0)
    (wrap64i (pre - post)).natAbs
  | none => 0

/-- `find_bonding_curve_reserves`: the first post token balance for `mint` at
an account index other than `user_account_index`; its parsed amount is the
real token reserve and its owner's post lamport balance the real SOL reserve;
`(0, 0)` when any step fails. -/
def find_bonding_curve_reserves (meta : TransactionMeta) (mint : String)
    (user_account_index : Int) (account_keys : List AccountKey) : Nat × Nat :=
  let posts := meta.post_token_balances.getD []
  match posts.find? (fun p => p.mint == mint && (p.account_index : Int) != user_account_index) with
  | some curve_token_account =>
    let real_token_reserves := parseU64or0 curve_token_account.ui_token_amount.amount
    match curve_token_account.owner with
    | some owner_address =>
      match account_keys.findIdx? (fun k => k.pubkey == owner_address) with
      | some owner_idx => (meta.post_balances.getD owner_idx 0, real_token_reserves)
      | none => (0, 0)
    | none => (0, 0)
  | none => (0, 0)

/-- The signed balance delta of a post token balance entry against the matching
pre entry (same account index and mint; pre amount defaults to `0`).
This is `post_amount - pre_amount` from the scan loop of
`parse_pump_fun_transaction`, with `i64` wrap-around made explicit. -/
def tradeDelta (pres : List TokenBalance) (post : TokenBalance) : Int :=
  let pre := pres.find? (fun p => p.account_index == post.account_index && p.mint == post.mint)
  let pre_amount := (pre.map (fun p => parseI64or0 p.ui_token_amount.amount)).getD 0
  let post_amount := parseI64or0 post.ui_token_amount.amount
  wrap64i (post_amount - pre_amount)

/-- The `Trade` record built once the scan loop of `parse_pump_fun_transaction`
has found its entry (`post` with non-zero delta `diff`).
`diff.abs() as u64` equals `diff.natAbs` on the whole `i64` range (at
`i64::MIN` the release-mode wrap of `abs` bit-cast to `u64` is `2^63`, which is
again the natural absolute value). -/
def tradeOfPost (signature : String) (timestamp : Int) (current_sol_price : ℚ)
    (tx : TransactionResult) (meta : TransactionMeta)
    (post : TokenBalance) (diff : Int) : Trade :=
  let token_mint := post.mint
  let user_wallet := post.owner.getD ""
  let token_amount_abs : Nat := diff.natAbs
  let is_buy : Bool := decide (0 < diff)
  let sol_amount_abs :=
    calculate_sol_change meta user_wallet tx.transaction.message.account_keys
  let r := find_bonding_curve_reserves meta token_mint (post.account_index : Int)
    tx.transaction.message.account_keys
  let virtual_sol := wrap64u (r.1 + VIRTUAL_SOL_OFFSET)
  let virtual_token := r.2
  let decimal_token : ℚ := (token_amount_abs : ℚ)
  let decimal_sol : ℚ := (sol_amount_abs : ℚ)
  let price_sol : Option ℚ :=
    if decimal_token ≠ 0 then some (decimal_sol / decimal_token) else some 0
  let price_usd := price_sol.map (fun p => p * current_sol_price)
  { signature := signature
    token_mint := token_mint
    sol_amount := decimal_sol
    token_amount := decimal_token
    is_buy := is_buy
    user_wallet := user_wallet
    timestamp := timestamp
    virtual_sol_reserves := (virtual_sol : ℚ)
    virtual_token_reserves := (virtual_token : ℚ)
    price_sol := price_sol
    price_usd := price_usd
    track_volume := true
    ix_name := if is_buy then "buy" else "sell"
    slot := u64AsI64 tx.slot }

/-- The predicate selecting the scan loop's entry: not wrapped SOL, and a
non-zero balance delta. -/
def tradeEntryPred (pres : List TokenBalance) (post : TokenBalance) : Bool :=
  !(post.mint == SOL_MINT) && !(tradeDelta pres post == 0)

/-- The `for post in post_balances` loop of `parse_pump_fun_transaction`:
skip wrapped SOL and zero-delta entries, return the trade built from the first
remaining entry. -/
def findTradeLoop (signature : String) (timestamp : Int) (current_sol_price : ℚ)
    (tx : TransactionResult) (meta : TransactionMeta) (pres : List TokenBalance) :
    List TokenBalance → Option Trade
  | [] => none
  | post :: rest =>
    if post.mint == SOL_MINT then
      findTradeLoop signature timestamp current_sol_price tx meta pres rest
    else if tradeDelta pres post == 0 then
      findTradeLoop signature timestamp current_sol_price tx meta pres rest
    else
      some (tradeOfPost signature timestamp current_sol_price tx meta post
        (tradeDelta pres post))

/-- The `timestamp` computation of `parse_pump_fun_transaction`:
`DateTime::from_timestamp(ts, 0).unwrap_or(Utc::now())` when a block time is
present, otherwise `Utc::now()` (the explicit `now`). -/
def tradeTimestamp (block_time : Option Int) (now : Int) : Int :=
  match block_time with
  | some ts => (fromTimestamp? ts).getD now
  | none => now

/-- `parse_pump_fun_transaction`.  The impure `Utc::now()` fallbacks are made
explicit through the `now` parameter; the `f64` SOL price is modelled as the
rational it converts to (`Decimal::from_f64(...).unwrap_or(ZERO)` folded in). -/
def parse_pump_fun_transaction (tx : TransactionResult) (current_sol_price : ℚ)
    (now : Int) : Except String (Option Trade) :=
  match tx.transaction.signatures.head? with
  | none => .error "No signature found"
  | some signature =>
    let is_pump_fun := tx.transaction.message.instructions.any
      (fun ix => ix.program_id == PUMP_FUN_PROGRAM_ID)
    if !is_pump_fun then .ok none
    else
      let timestamp : Int := tradeTimestamp tx.block_time now
      match tx.meta with
      | none => .ok none
      | some meta =>
        let post_balances := meta.post_token_balances.getD []
        let pre_balances := meta.pre_token_balances.getD []
        .ok (findTradeLoop signature timestamp current_sol_price tx meta
          pre_balances post_balances)

/-! ### `parser.rs`: token-creation extraction and its helpers -/

/-- One log line's effect on the scanned `name` (`extract_metadata_from_logs`):
value up to the first comma after `name:`/`Name:`, trimmed, kept when non-empty
and shorter than 100. -/
def logScanName (log : String) (cur : Option String) : Option String :=
  if strContains log "name:" || strContains log "Name:" then
    match orFind log "name:" "Name:" with
    | some pos =>
      let value := (takeUntilAny ((log.drop (pos + 5)).trim) [',']).trim
      if value ≠ "" ∧ value.length < 100 then some value else cur
    | none => cur
  else cur

/-- One log line's effect on the scanned `symbol`: value up to the first comma
after `symbol:`/`Symbol:`, kept when non-empty and shorter than 20. -/
def logScanSymbol (log : String) (cur : Option String) : Option String :=
  if strContains log "symbol:" || strContains log "Symbol:" then
    match orFind log "symbol:" "Symbol:" with
    | some pos =>
      let value := (takeUntilAny ((log.drop (pos + 7)).trim) [',']).trim
      if value ≠ "" ∧ value.length < 20 then some value else cur
    | none => cur
  else cur

/-- One log line's effect on the scanned `uri`: first whitespace-delimited
token after `uri:`/`Uri:`/`metadata:`, kept when it starts with `http`,
`ipfs` or `ar://`. -/
def logScanUri (log : String) (cur : Option String) : Option String :=
  if strContains log "uri:" || strContains log "Uri:" || strContains log "metadata:" then
    match (match orFind log "uri:" "Uri:" with
           | some p => some p
           | none => strFind? log "metadata:") with
    | some pos =>
      let start := pos + (if (log.drop pos).startsWith "metadata:" then 9 else 4)
      let value := (splitWsFirst ((log.drop start).trim)).trim
      if value.startsWith "http" || value.startsWith "ipfs" || value.startsWith "ar://" then
        some value
      else cur
    | none => cur
  else cur

/-- `extract_metadata_from_logs` (parser.rs): scan every log line in order;
later qualifying matches overwrite earlier ones. -/
def extract_metadata_from_logs (meta : TransactionMeta) :
    Option String × Option String × Option String :=
  match meta.log_messages with
  | none => (none, none, none)
  | some logs =>
    logs.foldl
      (fun acc log => (logScanName log acc.1, logScanSymbol log acc.2.1, logScanUri log acc.2.2))
      (none, none, none)

def SYSTEM_PROGRAM : String := "11111111111111111111111111111111"

def TOKEN_PROGRAM : String := "TokenkegQfeZyiNwAJbNbGKPFXCWuBvf9Ss623VQ5DA"

def ASSOCIATED_TOKEN_PROGRAM : String := "ATokenGPvbdGVxr1b2hvZbsiqW5xWH25efTNsLJA8knL"

def RENT_PROGRAM : String := "SysvarRent111111111111111111111111111111111"

def EVENT_AUTHORITY : String := "Ce6TQqeHC9p8KetsN6JsjHK7UTZk7nasjjnr7XxXp9F1"

/-- The fixed set of well-known addresses excluded by the bonding-curve
heuristic (plus the mint under consideration). -/
def knownExcluded (mint_address pubkey : String) : Bool :=
  pubkey == mint_address || pubkey == SYSTEM_PROGRAM || pubkey == TOKEN_PROGRAM ||
  pubkey == ASSOCIATED_TOKEN_PROGRAM || pubkey == RENT_PROGRAM ||
  pubkey == EVENT_AUTHORITY || pubkey == SOL_MINT || pubkey == PUMP_FUN_PROGRAM_ID

/-- `find_bonding_curve_address` (parser.rs): first writable non-signer
account at list position 3–7 with a 44-character address that is not one of
the well-known addresses.  `fetcher.rs` duplicates this function verbatim as
`find_bonding_curve_from_tx`; both are embedded by this single definition. -/
def find_bonding_curve_address (account_keys : List AccountKey)
    (mint_address : String) : Option String :=
  let candidates := account_keys.enum.filter (fun ia =>
    ia.2.writable && !ia.2.signer && !(knownExcluded mint_address ia.2.pubkey) &&
    decide (3 ≤ ia.1) && decide (ia.1 ≤ 7) && (ia.2.pubkey.length == 44))
  candidates.head?.map (fun ia => ia.2.pubkey)

/-- The `Token` record built by `parse_token_creation` for a brand-new mint
(`post` present with no pre entry for its mint).  `created_at` is the impure
`Utc::now()`, passed as `now`. -/
def creationToken (tx : TransactionResult) (meta : TransactionMeta)
    (post : TokenBalance) (now : Int) : Token :=
  let mint_address := post.mint
  let creator_wallet :=
    ((tx.transaction.message.account_keys.find? (fun k => k.signer)).map
      (fun k => k.pubkey)).getD ""
  let nsu := extract_metadata_from_logs meta
  let bonding_curve_address :=
    find_bonding_curve_address tx.transaction.message.account_keys mint_address
  let r := find_bonding_curve_reserves meta mint_address (-1)
    tx.transaction.message.account_keys
  let virtual_sol := wrap64u (r.1 + VIRTUAL_SOL_OFFSET)
  { mint_address := mint_address
    name := nsu.1
    symbol := nsu.2.1
    uri := nsu.2.2
    bonding_curve_address := bonding_curve_address
    creator_wallet := some creator_wallet
    virtual_token_reserves := (r.2 : ℚ)
    virtual_sol_reserves := (virtual_sol : ℚ)
    real_token_reserves := (r.2 : ℚ)
    token_total_supply := (1000000000000000 : ℚ)
    market_cap_usd := 0
    bonding_curve_progress := 0
    complete := false
    created_at := now
    updated_at := none }

/-- The `for post in post_balances` loop of `parse_token_creation`. -/
def findCreationLoop (tx : TransactionResult) (meta : TransactionMeta)
    (pres : List TokenBalance) (now : Int) : List TokenBalance → Option Token
  | [] => none
  | post :: rest =>
    let is_new := !(pres.any (fun p => p.mint == post.mint))
    if is_new && !(post.mint == SOL_MINT) then some (creationToken tx meta post now)
    else findCreationLoop tx meta pres now rest

/-- `parse_token_creation`.  The Rust signature returns `Result`, but no code
path produces an error, so the embedding returns the payload directly. -/
def parse_token_creation (tx : TransactionResult) (now : Int) : Option Token :=
  let is_pump_fun := tx.transaction.message.instructions.any
    (fun ix => ix.program_id == PUMP_FUN_PROGRAM_ID)
  if !is_pump_fun then none
  else
    match tx.meta with
    | none => none
    | some meta =>
      let post_balances := meta.post_token_balances.getD []
      let pre_balances := meta.pre_token_balances.getD []
      findCreationLoop tx meta pre_balances now post_balances

/-! ### `fetcher.rs`: the transaction resolver's retry loop -/

/-- One RPC attempt's outcome, as distinguished by `fetch_full_transaction`:
HTTP 429, a missing/null `result`, a decodable non-null `result`, or a
transport/decode failure that propagates through `?`. -/
inductive RpcResponse where
  | rateLimited
  | nullResult
  | success (tx : TransactionResult)
  | failure (msg : String)
deriving DecidableEq, Repr

inductive FetchError where
  | notFoundAfterRetries
  | rpc (msg : String)
deriving DecidableEq, Repr

/-- The body of `for attempt in 1..=3`: `fuel` is the number of attempts still
allowed, `attempt` the 1-based index of the next one.  429 and null results
consume an attempt (after a sleep, irrelevant here); a decodable result
returns; exhausting the loop yields the terminal error. -/
def fetchGo (responses : Nat → RpcResponse) :
    Nat → Nat → Except FetchError TransactionResult
  | 0, _ => .error .notFoundAfterRetries
  | fuel + 1, attempt =>
    match responses attempt with
    | .rateLimited => fetchGo responses fuel (attempt + 1)
    | .nullResult => fetchGo responses fuel (attempt + 1)
    | .success tx => .ok tx
    | .failure msg => .error (.rpc msg)

/-- `fetch_full_transaction`: at most 3 attempts, starting at attempt 1.
`responses k` is what the RPC endpoint would answer on the k-th call. -/
def fetch_full_transaction (responses : Nat → RpcResponse) :
    Except FetchError TransactionResult :=
  fetchGo responses 3 1

/-! ### `fetcher.rs`: pure state-transition logic of `process_and_save` -/

/-- One log line's effect on `name` in `extract_token_metadata_from_tx`
(fetcher.rs variant: guarded by `name.is_none()`, value split on any of
`,`, `"`, `}`). -/
def logScanNameTx (log : String) (cur : Option String) : Option String :=
  if cur.isNone && (strContains log "name:" || strContains log "Name:") then
    match orFind log "name:" "Name:" with
    | some pos =>
      let value := (takeUntilAny ((log.drop (pos + 5)).trim) [',', quoteChar, rbraceChar]).trim
      if value ≠ "" ∧ value.length < 100 then some value else cur
    | none => cur
  else cur

/-- One log line's effect on `symbol` in `extract_token_metadata_from_tx`. -/
def logScanSymbolTx (log : String) (cur : Option String) : Option String :=
  if cur.isNone && (strContains log "symbol:" || strContains log "Symbol:") then
    match orFind log "symbol:" "Symbol:" with
    | some pos =>
      let value := (takeUntilAny ((log.drop (pos + 7)).trim) [',', quoteChar, rbraceChar]).trim
      if value ≠ "" ∧ value.length < 20 then some value else cur
    | none => cur
  else cur

/-- One log line's effect on `uri` in `extract_token_metadata_from_tx`
(value split on any of space, `,`, `"`, `}`). -/
def logScanUriTx (log : String) (cur : Option String) : Option String :=
  if cur.isNone &&
      (strContains log "uri:" || strContains log "Uri:" || strContains log "metadata:") then
    match (match orFind log "uri:" "Uri:" with
           | some p => some p
           | none => strFind? log "metadata:") with
    | some pos =>
      let start := pos + (if (log.drop pos).startsWith "metadata:" then 9 else 4)
      let value := (takeUntilAny ((log.drop start).trim) [' ', ',', quoteChar, rbraceChar]).trim
      if value.startsWith "http" || value.startsWith "ipfs" || value.startsWith "ar://" then
        some value
      else cur
    | none => cur
  else cur

/-- `extract_token_metadata_from_tx` (fetcher.rs): first qualifying match per
field wins. -/
def extract_token_metadata_from_tx (tx : TransactionResult) :
    Option String × Option String × Option String :=
  match tx.meta with
  | none => (none, none, none)
  | some meta =>
    match meta.log_messages with
    | none => (none, none, none)
    | some logs =>
      logs.foldl
        (fun acc log =>
          (logScanNameTx log acc.1, logScanSymbolTx log acc.2.1, logScanUriTx log acc.2.2))
        (none, none, none)

/-- `find_bonding_curve_from_tx` (fetcher.rs): a verbatim duplicate of
parser.rs's `find_bonding_curve_address` applied to the transaction's keys. -/
def find_bonding_curve_from_tx (tx : TransactionResult) (mint_address : String) :
    Option String :=
  find_bonding_curve_address tx.transaction.message.account_keys mint_address

/-- Market-cap computation of the token-creation branch of `process_and_save`
(step 1): left at zero when `virtual_token_reserves` is zero. -/
def creationTokenWithMarketCap (token : Token) (current_sol_price : ℚ) : Token :=
  if token.virtual_token_reserves ≠ 0 then
    let token_price_sol := token.virtual_sol_reserves / token.virtual_token_reserves
    { token with market_cap_usd :=
        token_price_sol * token.token_total_supply * current_sol_price }
  else token

/-- The default `Token` synthesized by `process_and_save` when the trade's mint
has no stored row. -/
def default_token_from_trade (tx : TransactionResult) (trade : Trade) : Token :=
  let nsu := extract_token_metadata_from_tx tx
  let bonding_curve := find_bonding_curve_from_tx tx trade.token_mint
  { mint_address := trade.token_mint
    name := nsu.1
    symbol := nsu.2.1
    uri := nsu.2.2
    bonding_curve_address := bonding_curve
    creator_wallet := some trade.user_wallet
    virtual_token_reserves := trade.virtual_token_reserves
    virtual_sol_reserves := trade.virtual_sol_reserves
    real_token_reserves := 0
    token_total_supply := (1000000000000000 : ℚ)
    market_cap_usd := 0
    bonding_curve_progress := 0
    complete := false
    created_at := trade.timestamp
    updated_at := none }

/-- The metadata backfill of `process_and_save`: when any of name/symbol/uri is
missing, re-extract from the transaction and fill only the missing ones. -/
def backfill_metadata (tx : TransactionResult) (token : Token) : Token :=
  if token.name.isNone || token.symbol.isNone || token.uri.isNone then
    let nsu := extract_token_metadata_from_tx tx
    let token := if token.name.isNone ∧ nsu.1.isSome then { token with name := nsu.1 } else token
    let token :=
      if token.symbol.isNone ∧ nsu.2.1.isSome then { token with symbol := nsu.2.1 } else token
    if token.uri.isNone ∧ nsu.2.2.isSome then { token with uri := nsu.2.2 } else token
  else token

/-- The bonding-curve completion threshold used by `process_and_save`
(85 SOL in lamports). -/
def BONDING_COMPLETE_SOL : ℚ := (85000000000 : ℚ)

/-- Steps 3 of `process_and_save`'s trade branch: the token row that is passed
to `upsert_token` — loaded row or synthesized default, metadata and bonding
curve backfilled, reserves overwritten from the trade, market cap and
bonding-curve progress recomputed when the trade's token reserves are
non-zero, `complete` set once progress reaches 100. -/
def update_token_for_trade (stored : Option Token) (tx : TransactionResult)
    (trade : Trade) (current_sol_price : ℚ) : Token :=
  let token := match stored with
    | some t => t
    | none => default_token_from_trade tx trade
  let token := backfill_metadata tx token
  let token :=
    if token.bonding_curve_address.isNone then
      { token with bonding_curve_address := find_bonding_curve_from_tx tx trade.token_mint }
    else token
  let token := { token with
    virtual_sol_reserves := trade.virtual_sol_reserves
    virtual_token_reserves := trade.virtual_token_reserves }
  if trade.virtual_token_reserves ≠ 0 then
    let token_price_sol := trade.virtual_sol_reserves / trade.virtual_token_reserves
    let market_cap := token_price_sol * token.token_total_supply * current_sol_price
    let progress := (trade.virtual_sol_reserves / BONDING_COMPLETE_SOL) * (100 : ℚ)
    { token with
      market_cap_usd := market_cap
      bonding_curve_progress := progress
      complete := if progress ≥ 100 then true else token.complete }
  else token

/-- Step 4 of `process_and_save`'s trade branch: the new holder balance —
add on buy, subtract on sell with a floor at zero. -/
def compute_new_balance (is_buy : Bool) (current_balance token_amount : ℚ) : ℚ :=
  if is_buy then current_balance + token_amount
  else if current_balance ≥ token_amount then current_balance - token_amount
  else 0

/-! ### `queries.rs`: row-level semantics of the SQL statements

Each is modelled as a pure function from the currently stored row for the
statement's key (`none` when absent) and the incoming row to the resulting
stored row.  `NOW()` is the explicit `now` parameter. -/

/-- `upsert_token`: insert when absent; on conflict overwrite
name/symbol/uri, the four reserve/supply columns, market cap, progress and
`complete`, and stamp `updated_at` — `bonding_curve_address`, `creator_wallet`
and `created_at` are not in the update list and keep their stored values.
Neither `created_at` nor `updated_at` is in the insert column list; the
fresh row takes the table defaults (modelled as insertion time and NULL). -/
def upsert_token (stored : Option Token) (incoming : Token) (now : Int) : Token :=
  match stored with
  | none => { incoming with created_at := now, updated_at := none }
  | some s =>
    { s with
      name := incoming.name
      symbol := incoming.symbol
      uri := incoming.uri
      virtual_token_reserves := incoming.virtual_token_reserves
      virtual_sol_reserves := incoming.virtual_sol_reserves
      real_token_reserves := incoming.real_token_reserves
      token_total_supply := incoming.token_total_supply
      market_cap_usd := incoming.market_cap_usd
      bonding_curve_progress := incoming.bonding_curve_progress
      complete := incoming.complete
      updated_at := some now }

/-- `insert_trade`: `ON CONFLICT (timestamp, signature) DO NOTHING`. -/
def insert_trade (stored : Option Trade) (incoming : Trade) : Trade :=
  match stored with
  | none => incoming
  | some s => s

/-- `upsert_token_holder`: insert when absent; on conflict replace balance and
slot and stamp `updated_at`, but only when the stored `last_updated_slot` is
strictly below the incoming one — otherwise the row is left untouched. -/
def upsert_token_holder (stored : Option TokenHolder) (incoming : TokenHolder)
    (now : Int) : TokenHolder :=
  match stored with
  | none => { incoming with updated_at := none }
  | some s =>
    if s.last_updated_slot < incoming.last_updated_slot then
      { s with
        balance := incoming.balance
        last_updated_slot := incoming.last_updated_slot
        updated_at := some now }
    else s

/-- The current holder balance used by `process_and_save` (step 4):
the stored row's balance, `0` when no row exists (or the lookup fails). -/
def stored_balance (stored : Option TokenHolder) : ℚ :=
  match stored with
  | some holder => holder.balance
  | none => 0

/-! ### Helper functions for stating results -/

/-- The trade payload of a parse result, when it succeeded with one. -/
def parsedTrade? : Except String (Option Trade) → Option Trade
  | .ok (some t) => some t
  | _ => none

/-! ### Characterization of the trade-scan loop -/

/-- The scan loop returns the trade built from the first entry satisfying
`tradeEntryPred` (not wrapped SOL, non-zero delta), in metadata order. -/
theorem findTradeLoop_eq_find? (signature : String) (timestamp : Int)
    (current_sol_price : ℚ) (tx : TransactionResult) (meta : TransactionMeta)
    (pres posts : List TokenBalance) :
    findTradeLoop signature timestamp current_sol_price tx meta pres posts =
      (posts.find? (tradeEntryPred pres)).map
        (fun post => tradeOfPost signature timestamp current_sol_price tx meta post
          (tradeDelta pres post)) := by
  induction posts with
  | nil => rfl
  | cons post rest ih =>
    rw [findTradeLoop]
    by_cases h1 : post.mint == SOL_MINT
    · simp [h1, tradeEntryPred, List.find?, ih]
    · by_cases h2 : tradeDelta pres post == 0
      · simp [h1, h2, tradeEntryPred, List.find?, ih]
      · simp [h1, h2, tradeEntryPred, List.find?]

/-- Successful trade extraction, unpacked: the signature is the head of the
signature list, the metadata is present, the matched entry is the first one
passing `tradeEntryPred`, and the trade is `tradeOfPost` of that entry. -/
theorem parse_ok_some_elim {tx : TransactionResult} {current_sol_price : ℚ}
    {now : Int} {tr : Trade}
    (h : parse_pump_fun_transaction tx current_sol_price now = .ok (some tr)) :
    ∃ signature meta post,
      tx.transaction.signatures.head? = some signature ∧
      tx.meta = some meta ∧
      (meta.post_token_balances.getD []).find?
        (tradeEntryPred (meta.pre_token_balances.getD [])) = some post ∧
      tr = tradeOfPost signature (tradeTimestamp tx.block_time now) current_sol_price
        tx meta post (tradeDelta (meta.pre_token_balances.getD []) post) := by
  unfold parse_pump_fun_transaction at h
  match hsig : tx.transaction.signatures.head? with
  | none => rw [hsig] at h; exact absurd h (by simp)
  | some signature =>
    rw [hsig] at h
    by_cases hp : tx.transaction.message.instructions.any
        (fun ix => ix.program_id == PUMP_FUN_PROGRAM_ID)
    · rw [hp] at h
      match hmeta : tx.meta with
      | none => rw [hmeta] at h; exact absurd h (by simp)
      | some meta =>
        rw [hmeta] at h
        simp only [Bool.not_true, Bool.false_eq_true, if_false,
          findTradeLoop_eq_find?] at h
        match hfind : (meta.post_token_balances.getD []).find?
            (tradeEntryPred (meta.pre_token_balances.getD [])) with
        | none => rw [hfind] at h; exact absurd h (by simp)
        | some post =>
          rw [hfind] at h
          refine ⟨signature, meta, post, rfl, rfl, hfind, ?_⟩
          simpa using h.symm
    · rw [Bool.not_eq_true] at hp
      rw [hp] at h
      exact absurd h (by simp)

/-- An entry found by the scan is not wrapped SOL and has a non-zero delta. -/
theorem tradeEntryPred_of_find? {pres posts : List TokenBalance} {post : TokenBalance}
    (h : posts.find? (tradeEntryPred pres) = some post) :
    ¬ post.mint = SOL_MINT ∧ tradeDelta pres post ≠ 0 := by
  have := List.find?_some h
  unfold tradeEntryPred at this
  constructor
  · intro hc
    simp [hc] at this
  · intro hc
    simp [hc] at this

/-! ### Claim C1: holder balance arithmetic -/

/-- C1.  Applying a buy of `B` tokens to a holder whose current balance is `N`
(`N = 0` when no holder row exists) produces balance `N + B`; applying a sell
of `S` tokens produces `max (N - S) 0`; the computed balance is never negative
(for the buy case, given the non-negative balance and trade amount the code
always supplies). -/
theorem holder_balance_buy_sell (stored : Option TokenHolder) (B S : ℚ) :
    stored_balance none = 0 ∧
    compute_new_balance true (stored_balance stored) B = stored_balance stored + B ∧
    compute_new_balance false (stored_balance stored) S = max (stored_balance stored - S) 0 ∧
    0 ≤ compute_new_balance false (stored_balance stored) S ∧
    (0 ≤ stored_balance stored → 0 ≤ B →
      0 ≤ compute_new_balance true (stored_balance stored) B) := by
  set N := stored_balance stored with hN
  have hsell : compute_new_balance false N S = max (N - S) 0 := by
    by_cases h : N ≥ S
    · rw [compute_new_balance, if_neg (by simp), if_pos h,
        max_eq_left (by linarith)]
    · rw [compute_new_balance, if_neg (by simp), if_neg h,
        max_eq_right (by push_neg at h; linarith)]
  refine ⟨rfl, by simp [compute_new_balance], hsell, ?_, ?_⟩
  · rw [hsell]; exact le_max_right _ _
  · intro h1 h2
    simpa [compute_new_balance] using add_nonneg h1 h2

/-- Witness for C1 at a concrete holder row with balance 5, buy 3, sell 7. -/
theorem holder_balance_buy_sell_witness :
    stored_balance none = 0 ∧
    compute_new_balance true 5 3 = 5 + 3 ∧
    compute_new_balance false 5 7 = max (5 - 7 : ℚ) 0 ∧
    (0 ≤ compute_new_balance false 5 7 ∧ 0 ≤ compute_new_balance true 5 3) := by
  have h := holder_balance_buy_sell
    (some { token_mint := "M", user_wallet := "W", balance := 5,
            last_updated_slot := 1, updated_at := none }) 3 7
  have hb : stored_balance
      (some { token_mint := "M", user_wallet := "W", balance := 5,
              last_updated_slot := 1, updated_at := none }) = (5 : ℚ) := rfl
  rw [hb] at h
  exact ⟨h.1, h.2.1, h.2.2.1, h.2.2.2.1, h.2.2.2.2 (by norm_num) (by norm_num)⟩

/-! ### Claim C2: holder upsert slot guard -/

/-- Counterexample to C2: an incoming holder update whose slot equals the
stored `last_updated_slot` is rejected (the stored balance survives), while
the claim says it must be accepted. -/
theorem holder_upsert_equal_slot_rejected :
    (upsert_token_holder
      (some { token_mint := "M", user_wallet := "W", balance := 10,
              last_updated_slot := 5, updated_at := none })
      { token_mint := "M", user_wallet := "W", balance := 7,
        last_updated_slot := 5, updated_at := none } 99).balance = 10 ∧
    (10 : ℚ) ≠ 7 := by
  constructor
  · rfl
  · norm_num

/-- C2 as amended: an update on an existing row is accepted (balance and slot
replaced, `updated_at` stamped) if and only if the incoming slot is strictly
greater than the stored `last_updated_slot`; otherwise the row is unchanged —
an equal slot is rejected. -/
theorem holder_upsert_accept_iff_newer_slot (s h : TokenHolder) (now : Int) :
    (s.last_updated_slot < h.last_updated_slot →
      upsert_token_holder (some s) h now =
        { s with balance := h.balance, last_updated_slot := h.last_updated_slot,
                 updated_at := some now }) ∧
    (¬ s.last_updated_slot < h.last_updated_slot →
      upsert_token_holder (some s) h now = s) := by
  constructor
  · intro hlt
    simp [upsert_token_holder, hlt]
  · intro hge
    simp [upsert_token_holder, hge]

/-- Witness for C2 (amended) at concrete rows: slot 3 → 5 accepted,
slot 5 → 5 leaves the row unchanged. -/
theorem holder_upsert_accept_iff_newer_slot_witness :
    upsert_token_holder
        (some { token_mint := "M", user_wallet := "W", balance := 10,
                last_updated_slot := 3, updated_at := none })
        { token_mint := "M", user_wallet := "W", balance := 7,
          last_updated_slot := 5, updated_at := none } 99 =
      { token_mint := "M", user_wallet := "W", balance := 7,
        last_updated_slot := 5, updated_at := some 99 } ∧
    upsert_token_holder
        (some { token_mint := "M", user_wallet := "W", balance := 10,
                last_updated_slot := 5, updated_at := none })
        { token_mint := "M", user_wallet := "W", balance := 7,
          last_updated_slot := 5, updated_at := none } 99 =
      { token_mint := "M", user_wallet := "W", balance := 10,
        last_updated_slot := 5, updated_at := none } := by
  constructor
  · exact (holder_upsert_accept_iff_newer_slot
      { token_mint := "M", user_wallet := "W", balance := 10,
        last_updated_slot := 3, updated_at := none }
      { token_mint := "M", user_wallet := "W", balance := 7,
        last_updated_slot := 5, updated_at := none } 99).1 (by norm_num)
  · exact (holder_upsert_accept_iff_newer_slot
      { token_mint := "M", user_wallet := "W", balance := 10,
        last_updated_slot := 5, updated_at := none }
      { token_mint := "M", user_wallet := "W", balance := 7,
        last_updated_slot := 5, updated_at := none } 99).2 (by norm_num)

/-! ### Concrete transactions used by witnesses and counterexamples -/

/-- An instruction targeting the Pump.fun program. -/
def pumpIx : Instruction := { program_id := PUMP_FUN_PROGRAM_ID }

/-- A transaction with an empty signature list and no instructions. -/
def txNoSig : TransactionResult :=
  { slot := 0, block_time := none,
    transaction := { signatures := [], message := { account_keys := [], instructions := [] } },
    meta := none }

/-- A transaction with a signature whose only instruction targets another
program. -/
def txPlain : TransactionResult :=
  { slot := 0, block_time := none,
    transaction :=
      { signatures := ["plainsig"]
        message := { account_keys := [], instructions := [{ program_id := "SomeOtherProgram" }] } },
    meta := some
      { pre_balances := [], post_balances := [],
        pre_token_balances := none, post_token_balances := none, log_messages := none } }

/-- Metadata of the witness trade transaction: wallet `W4` buys 500 base units
of mint `M4` (token balance 1000 → 1500) while its lamport balance drops
10 → 4. -/
def metaW4 : TransactionMeta :=
  { pre_balances := [10]
    post_balances := [4]
    pre_token_balances := some
      [{ account_index := 1, mint := "M4", ui_token_amount := { amount := "1000" },
         owner := some "W4" }]
    post_token_balances := some
      [{ account_index := 1, mint := "M4", ui_token_amount := { amount := "1500" },
         owner := some "W4" }]
    log_messages := none }

/-- The witness trade transaction. -/
def txW4 : TransactionResult :=
  { slot := 42
    block_time := some 1700000000
    transaction :=
      { signatures := ["sigW4"]
        message :=
          { account_keys := [{ pubkey := "W4", signer := true, writable := true }]
            instructions := [pumpIx] } }
    meta := some metaW4 }

/-- The matched post token balance entry of `txW4`. -/
def postW4 : TokenBalance :=
  { account_index := 1, mint := "M4", ui_token_amount := { amount := "1500" },
    owner := some "W4" }

/-- The trade `parse_pump_fun_transaction` extracts from `txW4`. -/
def trW4 : Trade :=
  tradeOfPost "sigW4" (tradeTimestamp txW4.block_time 0) 2 txW4 metaW4 postW4
    (tradeDelta (metaW4.pre_token_balances.getD []) postW4)

/-! ### Claim C4: the trade comes from the first non-zero-delta entry -/

/-- C4.  A successfully extracted trade comes from the first post token
balance entry (in metadata order) whose mint is not wrapped SOL and whose
signed delta against the matching pre balance (same account index and mint,
pre defaulting to 0) is non-zero; `is_buy` holds iff that delta is positive
and `token_amount` is its absolute value. -/
theorem trade_from_first_nonzero_delta (tx : TransactionResult) (price : ℚ)
    (now : Int) (tr : Trade)
    (h : parse_pump_fun_transaction tx price now = .ok (some tr)) :
    ∃ meta post,
      tx.meta = some meta ∧
      (meta.post_token_balances.getD []).find?
        (tradeEntryPred (meta.pre_token_balances.getD [])) = some post ∧
      ¬ post.mint = SOL_MINT ∧
      tradeDelta (meta.pre_token_balances.getD []) post ≠ 0 ∧
      (tr.is_buy = true ↔ 0 < tradeDelta (meta.pre_token_balances.getD []) post) ∧
      tr.token_amount = ((tradeDelta (meta.pre_token_balances.getD []) post).natAbs : ℚ) ∧
      tr.token_mint = post.mint := by
  obtain ⟨signature, meta, post, hsig, hmeta, hfind, htr⟩ := parse_ok_some_elim h
  obtain ⟨hm, hd⟩ := tradeEntryPred_of_find? hfind
  subst htr
  exact ⟨meta, post, hmeta, hfind, hm, hd, by simp [tradeOfPost], rfl, rfl⟩

/-- Witness for C4 at `txW4`. -/
theorem trade_from_first_nonzero_delta_witness :
    ∃ meta post,
      txW4.meta = some meta ∧
      (meta.post_token_balances.getD []).find?
        (tradeEntryPred (meta.pre_token_balances.getD [])) = some post ∧
      ¬ post.mint = SOL_MINT ∧
      tradeDelta (meta.pre_token_balances.getD []) post ≠ 0 ∧
      (trW4.is_buy = true ↔ 0 < tradeDelta (meta.pre_token_balances.getD []) post) ∧
      trW4.token_amount = ((tradeDelta (meta.pre_token_balances.getD []) post).natAbs : ℚ) ∧
      trW4.token_mint = post.mint :=
  trade_from_first_nonzero_delta txW4 2 0 trW4 rfl

/-! ### Claim C5: transactions without a Pump.fun instruction -/

/-- Counterexample to C5: a transaction with no Pump.fun instruction but an
empty signature list makes `parse_pump_fun_transaction` return an error, not
none. -/
theorem parse_trade_errors_on_empty_signatures :
    txNoSig.transaction.message.instructions = [] ∧
    parse_pump_fun_transaction txNoSig 1 0 = .error "No signature found" ∧
    parse_pump_fun_transaction txNoSig 1 0 ≠ .ok none := by
  refine ⟨rfl, rfl, fun hc => ?_⟩
  rw [show parse_pump_fun_transaction txNoSig 1 0 = .error "No signature found" from rfl] at hc
  exact Except.noConfusion hc

/-- C5 as amended: when no instruction targets the Pump.fun program,
`parse_token_creation` returns none unconditionally, and
`parse_pump_fun_transaction` returns `Ok(None)` provided the signature list is
non-empty (with an empty signature list it returns an error instead). -/
theorem parse_none_without_pump_instruction (tx : TransactionResult) (price : ℚ)
    (now : Int)
    (hnp : ∀ ix ∈ tx.transaction.message.instructions, ¬ ix.program_id = PUMP_FUN_PROGRAM_ID) :
    (tx.transaction.signatures ≠ [] →
      parse_pump_fun_transaction tx price now = .ok none) ∧
    parse_token_creation tx now = none := by
  have hany : tx.transaction.message.instructions.any
      (fun ix => ix.program_id == PUMP_FUN_PROGRAM_ID) = false := by
    simp only [List.any_eq_false]
    intro ix hix
    simpa using hnp ix hix
  constructor
  · intro hs
    cases hxs : tx.transaction.signatures with
    | nil => exact absurd hxs hs
    | cons a l =>
      unfold parse_pump_fun_transaction
      rw [hxs]
      simp [hany]
  · unfold parse_token_creation
    rw [hany]
    simp

/-- Witness for C5 (amended) at `txPlain`. -/
theorem parse_none_without_pump_instruction_witness :
    parse_pump_fun_transaction txPlain 1 0 = .ok none ∧
    parse_token_creation txPlain 0 = none := by
  have h := parse_none_without_pump_instruction txPlain 1 0 (by decide)
  exact ⟨h.1 (by decide), h.2⟩

/-! ### Claim C6: the resolver's retry bound -/

/-- One unfolding step of the retry loop. -/
theorem fetchGo_succ (responses : Nat → RpcResponse) (fuel attempt : Nat) :
    fetchGo responses (fuel + 1) attempt =
      match responses attempt with
      | .rateLimited => fetchGo responses fuel (attempt + 1)
      | .nullResult => fetchGo responses fuel (attempt + 1)
      | .success tx => .ok tx
      | .failure msg => .error (.rpc msg) := rfl

/-- C6 as amended: the retry bound is three attempts.  Null results on all
three attempts yield `NotFoundAfterRetries` (a fourth call is never made); a
valid result on the third attempt after two nulls is returned without
error. -/
theorem resolver_three_attempt_bound (responses : Nat → RpcResponse)
    (h1 : responses 1 = .nullResult) (h2 : responses 2 = .nullResult) :
    (responses 3 = .nullResult →
      fetch_full_transaction responses = .error .notFoundAfterRetries) ∧
    (∀ tx, responses 3 = .success tx → fetch_full_transaction responses = .ok tx) := by
  have e : fetch_full_transaction responses = fetchGo responses (2 + 1) 1 := rfl
  constructor
  · intro h3
    rw [e, fetchGo_succ, h1]
    show fetchGo responses (1 + 1) 2 = _
    rw [fetchGo_succ, h2]
    show fetchGo responses (0 + 1) 3 = _
    rw [fetchGo_succ, h3]
    rfl
  · intro tx h3
    rw [e, fetchGo_succ, h1]
    show fetchGo responses (1 + 1) 2 = _
    rw [fetchGo_succ, h2]
    show fetchGo responses (0 + 1) 3 = _
    rw [fetchGo_succ, h3]

/-- An RPC oracle answering null on the first three calls and a valid
transaction from the fourth call on. -/
def responsesNullThenValid : Nat → RpcResponse :=
  fun n => if n ≤ 3 then .nullResult else .success txNoSig

/-- Counterexample to C6: with null results on the first three calls and a
valid result available on the fourth, the resolver returns
`NotFoundAfterRetries` — the fourth call is outside its bound of three
attempts and is never made. -/
theorem resolver_errors_despite_valid_fourth_response :
    responsesNullThenValid 1 = .nullResult ∧
    responsesNullThenValid 2 = .nullResult ∧
    responsesNullThenValid 3 = .nullResult ∧
    responsesNullThenValid 4 = .success txNoSig ∧
    fetch_full_transaction responsesNullThenValid = .error .notFoundAfterRetries :=
  ⟨rfl, rfl, rfl, rfl, rfl⟩

/-- An RPC oracle answering null twice, then a valid transaction. -/
def responsesValidThird : Nat → RpcResponse :=
  fun n => if n ≤ 2 then .nullResult else .success txNoSig

/-- Witness for C6 (amended): two nulls then a valid third response succeed. -/
theorem resolver_three_attempt_bound_witness :
    fetch_full_transaction responsesValidThird = .ok txNoSig :=
  (resolver_three_attempt_bound responsesValidThird rfl rfl).2 txNoSig rfl

/-! ### Claim C7: determinism of trade extraction -/

/-- A Pump.fun trade transaction carrying no block time. -/
def txC7 : TransactionResult :=
  { slot := 9
    block_time := none
    transaction :=
      { signatures := ["sigC7"]
        message :=
          { account_keys := [{ pubkey := "W7", signer := true, writable := true }]
            instructions := [pumpIx] } }
    meta := some
      { pre_balances := [9]
        post_balances := [2]
        pre_token_balances := some []
        post_token_balances := some
          [{ account_index := 0, mint := "M7", ui_token_amount := { amount := "5" },
             owner := some "W7" }]
        log_messages := none } }

/-- Counterexample to C7: on a transaction without a block time the two
invocations differ — the trade's timestamp comes from the call-time clock. -/
theorem parse_timestamp_depends_on_clock :
    txC7.block_time = none ∧
    (parsedTrade? (parse_pump_fun_transaction txC7 1 0)).map Trade.timestamp = some 0 ∧
    (parsedTrade? (parse_pump_fun_transaction txC7 1 1)).map Trade.timestamp = some 1 ∧
    parse_pump_fun_transaction txC7 1 0 ≠ parse_pump_fun_transaction txC7 1 1 := by
  refine ⟨rfl, by decide, by decide, fun hc => ?_⟩
  have h0 : (parsedTrade? (parse_pump_fun_transaction txC7 1 0)).map Trade.timestamp
      = some 0 := by decide
  have h1 : (parsedTrade? (parse_pump_fun_transaction txC7 1 1)).map Trade.timestamp
      = some 1 := by decide
  rw [hc, h1] at h0
  exact absurd h0 (by decide)

/-- C7 as amended: when the transaction carries a representable block time,
trade extraction does not depend on the clock — two invocations agree on all
fields. -/
theorem parse_deterministic_with_block_time (tx : TransactionResult) (price : ℚ)
    (ts now1 now2 : Int) (hb : tx.block_time = some ts)
    (h1 : CHRONO_MIN_TS ≤ ts) (h2 : ts ≤ CHRONO_MAX_TS) :
    parse_pump_fun_transaction tx price now1 = parse_pump_fun_transaction tx price now2 := by
  have ht : ∀ n : Int, tradeTimestamp tx.block_time n = ts := by
    intro n
    rw [hb]
    simp [tradeTimestamp, fromTimestamp?, h1, h2]
  unfold parse_pump_fun_transaction
  rw [ht now1, ht now2]

/-- Witness for C7 (amended) at `txW4` (block time 1700000000). -/
theorem parse_deterministic_with_block_time_witness :
    parse_pump_fun_transaction txW4 2 5 = parse_pump_fun_transaction txW4 2 9 :=
  parse_deterministic_with_block_time txW4 2 1700000000 5 9 rfl (by decide) (by decide)

/-! ### Facts about the token-update path of `process_and_save` -/

/-- The metadata backfill never touches `complete`. -/
theorem backfill_metadata_complete (tx : TransactionResult) (t : Token) :
    (backfill_metadata tx t).complete = t.complete := by
  unfold backfill_metadata
  split
  · simp only []
    repeat' split
    all_goals rfl
  · rfl

/-- The metadata backfill never touches `bonding_curve_progress`. -/
theorem backfill_metadata_progress (tx : TransactionResult) (t : Token) :
    (backfill_metadata tx t).bonding_curve_progress = t.bonding_curve_progress := by
  unfold backfill_metadata
  split
  · simp only []
    repeat' split
    all_goals rfl
  · rfl

/-- The metadata backfill keeps an already-present name. -/
theorem backfill_metadata_name (tx : TransactionResult) (t : Token) (n : String)
    (h : t.name = some n) : (backfill_metadata tx t).name = some n := by
  unfold backfill_metadata
  split
  · simp only []
    repeat' split
    all_goals simp_all
  · exact h

/-- The metadata backfill keeps an already-present symbol. -/
theorem backfill_metadata_symbol (tx : TransactionResult) (t : Token) (s : String)
    (h : t.symbol = some s) : (backfill_metadata tx t).symbol = some s := by
  unfold backfill_metadata
  split
  · simp only []
    repeat' split
    all_goals simp_all
  · exact h

/-- The metadata backfill keeps an already-present uri. -/
theorem backfill_metadata_uri (tx : TransactionResult) (t : Token) (u : String)
    (h : t.uri = some u) : (backfill_metadata tx t).uri = some u := by
  unfold backfill_metadata
  split
  · simp only []
    repeat' split
    all_goals simp_all
  · exact h

/-! ### Claim C3: bonding-curve progress and completion -/

/-- A stored token whose metadata is fully present. -/
def tokenC3 : Token :=
  { mint_address := "MC3", name := some "N", symbol := some "S", uri := some "U",
    bonding_curve_address := some "B", creator_wallet := some "C",
    virtual_token_reserves := 1, virtual_sol_reserves := 1, real_token_reserves := 0,
    token_total_supply := 1, market_cap_usd := 0, bonding_curve_progress := 0,
    complete := false, created_at := 0, updated_at := none }

/-- A trade carrying 170 SOL of virtual reserves (twice the completion
threshold). -/
def tradeC3 : Trade :=
  { signature := "sC3", token_mint := "MC3", sol_amount := 0, token_amount := 0,
    is_buy := true, user_wallet := "W", timestamp := 0,
    virtual_sol_reserves := 170000000000, virtual_token_reserves := 1,
    price_sol := none, price_usd := none, track_volume := true, ix_name := "buy",
    slot := 0 }

/-- Counterexample to C3: after applying `tradeC3` the stored progress is 200,
not clamped to [0, 100]. -/
theorem bonding_progress_exceeds_100 :
    (upsert_token (some tokenC3)
        (update_token_for_trade (some tokenC3) txNoSig tradeC3 1) 0).bonding_curve_progress
      = 200 ∧
    ¬ (upsert_token (some tokenC3)
        (update_token_for_trade (some tokenC3) txNoSig tradeC3 1) 0).bonding_curve_progress
      ≤ 100 := by
  have h : (update_token_for_trade (some tokenC3) txNoSig tradeC3 1).bonding_curve_progress
      = 200 := by
    norm_num [update_token_for_trade, backfill_metadata, tokenC3, tradeC3, txNoSig,
      BONDING_COMPLETE_SOL, extract_token_metadata_from_tx]
  have hu : (upsert_token (some tokenC3)
      (update_token_for_trade (some tokenC3) txNoSig tradeC3 1) 0).bonding_curve_progress
      = (update_token_for_trade (some tokenC3) txNoSig tradeC3 1).bonding_curve_progress := rfl
  rw [hu, h]
  norm_num

/-- C3 as amended: for a trade with non-zero `virtual_token_reserves` the
stored progress equals `(virtual_sol_reserves / 85·10⁹) · 100` exactly — it is
non-negative when the reserves are, but it is not clamped above 100 — and a
token whose `complete` flag is already true keeps it true through any
subsequent trade update, regardless of the trade's reserves. -/
theorem bonding_progress_formula_and_complete_monotone
    (stored : Token) (tx : TransactionResult) (trade : Trade) (price : ℚ) (now : Int) :
    (stored.complete = true →
      (upsert_token (some stored)
        (update_token_for_trade (some stored) tx trade price) now).complete = true) ∧
    (trade.virtual_token_reserves ≠ 0 →
      (update_token_for_trade (some stored) tx trade price).bonding_curve_progress =
        trade.virtual_sol_reserves / BONDING_COMPLETE_SOL * 100 ∧
      (0 ≤ trade.virtual_sol_reserves →
        0 ≤ (update_token_for_trade (some stored) tx trade price).bonding_curve_progress)) := by
  constructor
  · intro hc
    have hcomplete : (update_token_for_trade (some stored) tx trade price).complete = true := by
      unfold update_token_for_trade
      have hbc : (backfill_metadata tx stored).complete = true := by
        rw [backfill_metadata_complete]; exact hc
      simp only []
      generalize hgb : backfill_metadata tx stored = b at hbc ⊢
      split
      · dsimp only []
        split
        · rfl
        · split <;> simp [hbc]
      · dsimp only []
        split <;> simp [hbc]
    exact hcomplete
  · intro hvtr
    have hp : (update_token_for_trade (some stored) tx trade price).bonding_curve_progress =
        trade.virtual_sol_reserves / BONDING_COMPLETE_SOL * 100 := by
      unfold update_token_for_trade
      rw [if_pos hvtr]
    refine ⟨hp, fun hv => ?_⟩
    rw [hp]
    have : (0 : ℚ) < BONDING_COMPLETE_SOL := by norm_num [BONDING_COMPLETE_SOL]
    positivity

/-- Witness for C3 (amended) at `tokenC3` (with `complete := true`) and
`tradeC3`. -/
theorem bonding_progress_formula_and_complete_monotone_witness :
    (upsert_token (some { tokenC3 with complete := true })
      (update_token_for_trade (some { tokenC3 with complete := true })
        txNoSig tradeC3 1) 0).complete = true ∧
    (update_token_for_trade (some { tokenC3 with complete := true })
        txNoSig tradeC3 1).bonding_curve_progress =
      tradeC3.virtual_sol_reserves / BONDING_COMPLETE_SOL * 100 ∧
    0 ≤ (update_token_for_trade (some { tokenC3 with complete := true })
        txNoSig tradeC3 1).bonding_curve_progress := by
  have h := bonding_progress_formula_and_complete_monotone
    { tokenC3 with complete := true } txNoSig tradeC3 1 0
  have h2 := h.2 (by norm_num [tradeC3])
  exact ⟨h.1 rfl, h2.1, h2.2 (by norm_num [tradeC3])⟩

/-! ### Claim C8: metadata is never cleared (trade path) vs. creation path -/

/-- The trade path keeps an already-present name. -/
theorem update_token_for_trade_name (stored : Token) (tx : TransactionResult)
    (trade : Trade) (price : ℚ) (n : String) (h : stored.name = some n) :
    (update_token_for_trade (some stored) tx trade price).name = some n := by
  unfold update_token_for_trade
  have hbn := backfill_metadata_name tx stored n h
  simp only []
  generalize hgb : backfill_metadata tx stored = b at hbn ⊢
  split
  · dsimp only []
    split <;> simp [hbn]
  · dsimp only []
    split <;> simp [hbn]

/-- The trade path keeps an already-present symbol. -/
theorem update_token_for_trade_symbol (stored : Token) (tx : TransactionResult)
    (trade : Trade) (price : ℚ) (sym : String) (h : stored.symbol = some sym) :
    (update_token_for_trade (some stored) tx trade price).symbol = some sym := by
  unfold update_token_for_trade
  have hbs := backfill_metadata_symbol tx stored sym h
  simp only []
  generalize hgb : backfill_metadata tx stored = b at hbs ⊢
  split
  · dsimp only []
    split <;> simp [hbs]
  · dsimp only []
    split <;> simp [hbs]

/-- The trade path keeps an already-present uri. -/
theorem update_token_for_trade_uri (stored : Token) (tx : TransactionResult)
    (trade : Trade) (price : ℚ) (u : String) (h : stored.uri = some u) :
    (update_token_for_trade (some stored) tx trade price).uri = some u := by
  unfold update_token_for_trade
  have hbu := backfill_metadata_uri tx stored u h
  simp only []
  generalize hgb : backfill_metadata tx stored = b at hbu ⊢
  split
  · dsimp only []
    split <;> simp [hbu]
  · dsimp only []
    split <;> simp [hbu]

/-- C8 as amended: in the trade-application path, stored non-null
name/symbol/uri are never replaced with null — metadata is only filled in when
absent.  (The token-creation path, by contrast, upserts the freshly parsed
token directly and can clear stored metadata; see the counterexample.) -/
theorem trade_path_preserves_metadata (stored : Token) (tx : TransactionResult)
    (trade : Trade) (price : ℚ) (now : Int) :
    (∀ n, stored.name = some n →
      (upsert_token (some stored)
        (update_token_for_trade (some stored) tx trade price) now).name = some n) ∧
    (∀ sym, stored.symbol = some sym →
      (upsert_token (some stored)
        (update_token_for_trade (some stored) tx trade price) now).symbol = some sym) ∧
    (∀ u, stored.uri = some u →
      (upsert_token (some stored)
        (update_token_for_trade (some stored) tx trade price) now).uri = some u) := by
  refine ⟨fun n h => ?_, fun sym h => ?_, fun u h => ?_⟩
  · exact update_token_for_trade_name stored tx trade price n h
  · exact update_token_for_trade_symbol stored tx trade price sym h
  · exact update_token_for_trade_uri stored tx trade price u h

/-- A stored token row for mint `MC8` with full metadata. -/
def storedC8 : Token :=
  { mint_address := "MC8", name := some "FooCoin", symbol := some "FOO",
    uri := some "https://x", bonding_curve_address := some "B",
    creator_wallet := some "C", virtual_token_reserves := 1,
    virtual_sol_reserves := 1, real_token_reserves := 1, token_total_supply := 1,
    market_cap_usd := 0, bonding_curve_progress := 0, complete := false,
    created_at := 0, updated_at := none }

/-- Witness for C8 (amended): applying a trade (via a transaction carrying no
extractable metadata) to `storedC8` keeps its metadata. -/
theorem trade_path_preserves_metadata_witness :
    (upsert_token (some storedC8)
      (update_token_for_trade (some storedC8) txNoSig tradeC3 1) 7).name = some "FooCoin" ∧
    (upsert_token (some storedC8)
      (update_token_for_trade (some storedC8) txNoSig tradeC3 1) 7).symbol = some "FOO" ∧
    (upsert_token (some storedC8)
      (update_token_for_trade (some storedC8) txNoSig tradeC3 1) 7).uri = some "https://x" := by
  have h := trade_path_preserves_metadata storedC8 txNoSig tradeC3 1 7
  exact ⟨h.1 "FooCoin" rfl, h.2.1 "FOO" rfl, h.2.2 "https://x" rfl⟩

/-- The post token balance entry of the re-creation transaction for `MC8`. -/
def postC8 : TokenBalance :=
  { account_index := 0, mint := "MC8", ui_token_amount := { amount := "0" },
    owner := some "B8" }

/-- Metadata of the re-creation transaction: `MC8` appears only in the post
balances and the logs carry no metadata. -/
def metaC8 : TransactionMeta :=
  { pre_balances := [], post_balances := [],
    pre_token_balances := some [], post_token_balances := some [postC8],
    log_messages := none }

/-- A Pump.fun transaction that parses as a token creation for `MC8` with no
extractable metadata. -/
def txC8 : TransactionResult :=
  { slot := 1, block_time := none,
    transaction :=
      { signatures := ["sC8"]
        message :=
          { account_keys := [{ pubkey := "CR8", signer := true, writable := true }]
            instructions := [pumpIx] } }
    meta := some metaC8 }

/-- The token `parse_token_creation` extracts from `txC8`. -/
def tokC8 : Token := creationToken txC8 metaC8 postC8 0

/-- Counterexample to C8: the token-creation path upserts the parsed token
directly; on a mint whose stored row already has a name, the upsert replaces
the non-null name with null. -/
theorem creation_upsert_clears_metadata :
    storedC8.name = some "FooCoin" ∧
    parse_token_creation txC8 0 = some tokC8 ∧
    tokC8.mint_address = storedC8.mint_address ∧
    tokC8.name = none ∧
    (upsert_token (some storedC8) (creationTokenWithMarketCap tokC8 1) 5).name = none := by
  refine ⟨rfl, rfl, rfl, rfl, rfl⟩

/-! ### Claim C9: missing or unresolvable trade wallet -/

/-- C9 as amended: the extracted trade's wallet is the matched entry's owner,
defaulting to the empty string when the owner is absent; whenever that wallet
(whatever it is) does not occur among the account keys, the SOL amount is 0 and
the SOL price is 0.  (The original claim — that a missing owner alone forces
`solAmount = 0` — fails when an account key is itself the empty string; see the
counterexample.) -/
theorem unresolved_wallet_zero_sol (tx : TransactionResult) (price : ℚ)
    (now : Int) (tr : Trade)
    (h : parse_pump_fun_transaction tx price now = .ok (some tr)) :
    (∃ meta post, tx.meta = some meta ∧
      (meta.post_token_balances.getD []).find?
        (tradeEntryPred (meta.pre_token_balances.getD [])) = some post ∧
      tr.user_wallet = post.owner.getD "") ∧
    ((∀ k ∈ tx.transaction.message.account_keys, ¬ k.pubkey = tr.user_wallet) →
      tr.sol_amount = 0 ∧ tr.price_sol = some 0) := by
  obtain ⟨signature, meta, post, hsig, hmeta, hfind, htr⟩ := parse_ok_some_elim h
  subst htr
  refine ⟨⟨meta, post, hmeta, hfind, rfl⟩, fun hwal => ?_⟩
  have hidx : (tx.transaction.message.account_keys.findIdx?
      (fun k => k.pubkey == post.owner.getD "")) = none := by
    rw [List.findIdx?_eq_none_iff]
    intro k hk
    simp only [beq_eq_false_iff_ne, ne_eq]
    exact hwal k hk
  have hsol : calculate_sol_change meta (post.owner.getD "")
      tx.transaction.message.account_keys = 0 := by
    unfold calculate_sol_change
    rw [hidx]
  constructor
  · show ((calculate_sol_change meta (post.owner.getD "")
      tx.transaction.message.account_keys : ℕ) : ℚ) = 0
    rw [hsol]
    norm_num
  · show (if ((((tradeDelta (meta.pre_token_balances.getD []) post).natAbs : ℕ) : ℚ) ≠ 0) then
        some (((calculate_sol_change meta (post.owner.getD "")
          tx.transaction.message.account_keys : ℕ) : ℚ) /
          (((tradeDelta (meta.pre_token_balances.getD []) post).natAbs : ℕ) : ℚ))
      else some 0) = some 0
    rw [hsol]
    split
    · norm_num
    · rfl

/-- The matched post token balance entry of `txC9`: no owner field. -/
def postC9 : TokenBalance :=
  { account_index := 1, mint := "M9", ui_token_amount := { amount := "5" },
    owner := none }

/-- Metadata of `txC9`: the lamport balance at index 0 drops 7 → 2. -/
def metaC9 : TransactionMeta :=
  { pre_balances := [7], post_balances := [2],
    pre_token_balances := some [], post_token_balances := some [postC9],
    log_messages := none }

/-- A Pump.fun trade transaction whose first account key is the empty
string. -/
def txC9 : TransactionResult :=
  { slot := 3, block_time := none,
    transaction :=
      { signatures := ["sC9"]
        message :=
          { account_keys := [{ pubkey := "", signer := false, writable := true }]
            instructions := [pumpIx] } }
    meta := some metaC9 }

/-- Counterexample to C9: the matched entry has no owner, yet the extracted
trade's `sol_amount` is 5, not 0 — the empty-string default wallet matches the
degenerate empty account key, whose balance change is 5. -/
theorem missing_owner_nonzero_sol_amount :
    postC9.owner = none ∧
    (metaC9.post_token_balances.getD []).find?
      (tradeEntryPred (metaC9.pre_token_balances.getD [])) = some postC9 ∧
    (parsedTrade? (parse_pump_fun_transaction txC9 1 0)).map Trade.user_wallet = some "" ∧
    (parsedTrade? (parse_pump_fun_transaction txC9 1 0)).map Trade.sol_amount = some 5 ∧
    (5 : ℚ) ≠ 0 := by
  refine ⟨rfl, by decide, by decide, by decide, by norm_num⟩

/-- Witness for C9 (amended) at `txW9` (no matching account key at all). -/
def txW9 : TransactionResult :=
  { slot := 3, block_time := none,
    transaction :=
      { signatures := ["sW9"]
        message :=
          { account_keys := [{ pubkey := "OTHER", signer := true, writable := true }]
            instructions := [pumpIx] } }
    meta := some metaC9 }

/-- The trade `parse_pump_fun_transaction` extracts from `txW9`. -/
def trW9 : Trade :=
  tradeOfPost "sW9" (tradeTimestamp txW9.block_time 0) 1 txW9 metaC9 postC9
    (tradeDelta (metaC9.pre_token_balances.getD []) postC9)

/-- Witness for C9 (amended): with no account key matching the (empty) wallet,
the SOL amount and price are zero. -/
theorem unresolved_wallet_zero_sol_witness :
    trW9.user_wallet = postC9.owner.getD "" ∧
    trW9.sol_amount = 0 ∧ trW9.price_sol = some 0 := by
  have h := unresolved_wallet_zero_sol txW9 1 0 trW9 rfl
  have h2 := h.2 (by decide)
  exact ⟨rfl, h2.1, h2.2⟩

/-! ### Claim C10: default bonding-curve reserves -/

/-- C10.  When no post token balance for the trade's mint exists at an account
index other than the matched entry's, or the first such entry's owner is
missing or not resolvable to an account-keys position, the reserves default to
`(0, 0)` and the trade carries `virtual_sol_reserves = 30·10⁹` (the fixed
virtual offset alone) and `virtual_token_reserves = 0`. -/
theorem default_reserves_virtual_offset (tx : TransactionResult) (price : ℚ)
    (now : Int) (tr : Trade)
    (h : parse_pump_fun_transaction tx price now = .ok (some tr)) :
    ∃ meta post,
      tx.meta = some meta ∧
      (meta.post_token_balances.getD []).find?
        (tradeEntryPred (meta.pre_token_balances.getD [])) = some post ∧
      (((meta.post_token_balances.getD []).find?
          (fun p => p.mint == post.mint &&
            (p.account_index : Int) != (post.account_index : Int)) = none ∨
        (∃ curve, (meta.post_token_balances.getD []).find?
            (fun p => p.mint == post.mint &&
              (p.account_index : Int) != (post.account_index : Int)) = some curve ∧
          (curve.owner = none ∨ (∃ w, curve.owner = some w ∧
            tx.transaction.message.account_keys.findIdx?
              (fun k => k.pubkey == w) = none)))) →
        tr.virtual_sol_reserves = (30000000000 : ℚ) ∧
        tr.virtual_token_reserves = 0) := by
  obtain ⟨signature, meta, post, hsig, hmeta, hfind, htr⟩ := parse_ok_some_elim h
  subst htr
  refine ⟨meta, post, hmeta, hfind, fun hcond => ?_⟩
  have hres : find_bonding_curve_reserves meta post.mint (post.account_index : Int)
      tx.transaction.message.account_keys = (0, 0) := by
    unfold find_bonding_curve_reserves
    simp only []
    rcases hcond with hnone | ⟨curve, hcurve, hown⟩
    · rw [hnone]
    · rw [hcurve]
      dsimp only []
      rcases hown with h0 | ⟨w, hw, hidx⟩
      · rw [h0]
      · rw [hw]
        dsimp only []
        rw [hidx]
  constructor
  · show ((wrap64u ((find_bonding_curve_reserves meta post.mint
      (post.account_index : Int) tx.transaction.message.account_keys).1 +
        VIRTUAL_SOL_OFFSET) : ℕ) : ℚ) = (30000000000 : ℚ)
    rw [hres]
    norm_num [wrap64u, U64_MOD, VIRTUAL_SOL_OFFSET, LAMPORTS_PER_SOL]
  · show (((find_bonding_curve_reserves meta post.mint
      (post.account_index : Int) tx.transaction.message.account_keys).2 : ℕ) : ℚ) = 0
    rw [hres]
    norm_num

/-- Witness for C10 at `txW4` (its only token balance entry is the matched
one, so no bonding-curve entry exists). -/
theorem default_reserves_virtual_offset_witness :
    trW4.virtual_sol_reserves = (30000000000 : ℚ) ∧
    trW4.virtual_token_reserves = 0 := by
  obtain ⟨meta, post, hm, hf, himp⟩ := default_reserves_virtual_offset txW4 2 0 trW4 rfl
  rw [show txW4.meta = some metaW4 from rfl] at hm
  have hme : meta = metaW4 := (Option.some.inj hm).symm
  subst hme
  rw [show (metaW4.post_token_balances.getD []).find?
      (tradeEntryPred (metaW4.pre_token_balances.getD [])) = some postW4 from by decide] at hf
  have hpo : post = postW4 := (Option.some.inj hf).symm
  subst hpo
  exact himp (Or.inl (by decide))

end Pump